import Mathlib

/-!
# TerminalHere: selection resolution, menu contribution, terminal dispatch

A shallow embedding of `TerminalHere.c` (the contextual-menu plug-in that opens a
terminal in the selected folder) and theorems about its two entry points,
`examineContext` and `handleSelection`.

The plug-in is glue code around Carbon / CoreServices calls.  Every such call is
answered by a `World`: a record holding, for each system function the source calls,
the status and outputs that the call yields.  The functions of `TerminalHere.c` are
translated statement by statement over an arbitrary `World`; each of them also
returns the ordered list of system calls it performed (`List Call`), so that
statements such as "no message is sent" can be read off the result.

Conventions of the translation:
* an out-parameter (`FSRef *file`) becomes an argument holding the old content and a
  component of the result holding the new content;
* the `FSRef` local that the entry points leave uninitialised takes its content from
  the `World` (`indeterminateFSRef`);
* a pointer that the source returns without having assigned it is `none`, and a run
  that hands such a pointer to a system call ends as `Completion.undefined`: the
  behaviour of the source is undefined from there on, nothing is returned, and the
  trace lists the calls made up to that point;
* `require_noerr (err, label)` is `if err ≠ noErr then` followed by the code at `label`;
* `DEBUG_PRINT` / `DEBUG_CFSTR` expand to nothing and the `__DEBUG__` blocks are not
  compiled; calls that only release memory (`AEDisposeDesc`, `DisposeHandle`,
  `CFRelease`, `free`) are not recorded;
* the unused `pluginInstance` argument of the entry points is dropped.
-/

namespace TerminalHere

/-! ## Platform types and constants -/

/-- Status code of a system call (`OSStatus`, `OSErr`). -/
abbrev OSStatus := Int

/-- Four-character code naming a descriptor type (`DescType`). -/
abbrev DescType := Nat

/-- Four-character code naming a record key or event parameter (`AEKeyword`). -/
abbrev AEKeyword := Nat

/-- Status of a call that succeeded. -/
def noErr : OSStatus := 0

/-- Apple Event Manager status "wrong data type" (MacErrors.h). -/
def errAEWrongDataType : OSStatus := -1703

/-- Apple Event Manager status "descriptor not found" (MacErrors.h), the answer of
`AEGetNthDesc` for an index that the list does not have. -/
def errAEDescNotFound : OSStatus := -1701

/-- Descriptor type of a descriptor list, the code `list`. -/
def typeAEList : DescType := 0x6C697374

/-- Descriptor type of an alias record, the code `alis`. -/
def typeAlias : DescType := 0x616C6973

/-- Descriptor type matching any type, the code `****`. -/
def typeWildCard : DescType := 0x2A2A2A2A

/-- Descriptor type of the null descriptor, the code `null`. -/
def typeNull : DescType := 0x6E756C6C

/-- Descriptor type of UTF-8 text, the code `utf8`. -/
def typeUTF8Text : DescType := 0x75746638

/-- Descriptor type of an application bundle identifier, the code `bund`. -/
def typeApplicationBundleID : DescType := 0x62756E64

/-- Descriptor type of a `CFStringRef`, the code `cfst`. -/
def typeCFStringRef : DescType := 0x63667374

/-- Descriptor type of a 32-bit integer, the code `long`. -/
def typeLongInteger : DescType := 0x6C6F6E67

/-- Record key of a name, the code `pnam`. -/
def keyAEName : AEKeyword := 0x706E616D

/-- Record key of a contextual menu command id, the code `cmcd`. -/
def keyContextualMenuCommandID : AEKeyword := 0x636D6364

/-- Event class of the core suite, the code `core`. -/
def kAECoreSuite : Nat := 0x636F7265

/-- Event id of "do script", the code `dosc`. -/
def kAEDoScript : Nat := 0x646F7363

/-- Keyword of the command parameter, the code `cmnd`. -/
def kAECommandClass : AEKeyword := 0x636D6E64

/-- Return id asking the Apple Event Manager to generate one. -/
def kAutoGenerateReturnID : Int := -1

/-- Transaction id of an event outside any transaction. -/
def kAnyTransactionID : Int := 0

/-- Send mode: the sender wants no reply. -/
def kAENoReply : Int := 1

/-- Send priority: normal. -/
def kAENormalPriority : Int := 0

/-- Send timeout: the platform default. -/
def kAEDefaultTimeout : Int := -1

/-- Creator code matching any creator. -/
def kLSUnknownCreator : Nat := 0

/-- Launch flags: the defaults. -/
def kLSLaunchDefaults : Nat := 1

/-- Catalog information selector for the node flags. -/
def kFSCatInfoNodeFlags : Nat := 0x00000002

/-- Mask of the directory bit (bit 4) in the node flags (Files.h). -/
def kFSNodeIsDirectoryMask : Nat := 0x0010

/-- Command id of the separator entry: `kSeparatorMenuCommandId (7000L)`. -/
def kSeparatorMenuCommandId : Int := 7000

/-- Command id of the action entry: `kTerminalHereMenuCommandId (7001L)`. -/
def kTerminalHereMenuCommandId : Int := 7001

/-- Storage of a descriptor's data (`AEDataStorage`): nothing, data held by the host and
known only through its handle, or character data. -/
inductive AEDataStorage where
  | null
  | stored (handle : Nat)
  | chars (text : String)
  deriving DecidableEq, Repr

/-- Apple event descriptor: a type code and a data handle. -/
structure AEDesc where
  descriptorType : DescType
  dataHandle : AEDataStorage
  deriving DecidableEq, Repr

/-- File system reference: an opaque handle to a file system entry. -/
structure FSRef where
  hidden : Nat
  deriving DecidableEq, Repr

/-- Value stored under a record key by `AEPutKeyPtr`. -/
inductive KeyData where
  | cfString (s : String)
  | long (n : Int)
  deriving DecidableEq, Repr

/-- One keyed item of a record: keyword, type code, data. -/
structure KeyedItem where
  keyword : AEKeyword
  typeCode : DescType
  data : KeyData
  deriving DecidableEq, Repr

/-- Apple event record, the keyed items in the order they were put. -/
abbrev AERecord := List KeyedItem

/-- The command list that the host hands to `examineContext`: a list of command
records, in menu order. -/
abbrev AEDescList := List AERecord

/-- Launch request handed to `LSOpenFromRefSpec`; the fields the source sets to
`NULL` (`itemRefs`, `passThruParams`, `asyncRefCon`) are not represented. -/
structure LSLaunchFSRefSpec where
  appRef : FSRef
  numDocs : Nat
  launchFlags : Nat
  deriving DecidableEq, Repr

/-- An Apple event: class, id, target address, ids, and the parameters attached so
far. -/
structure AppleEvent where
  eventClass : Nat
  eventID : Nat
  target : AEDesc
  returnID : Int
  transactionID : Int
  params : List (AEKeyword × AEDesc)
  deriving DecidableEq, Repr

/-- A system call performed by the plug-in, with the arguments that identify it. -/
inductive Call where
  | AECountItems (desc : AEDesc)
  | AEGetNthDesc (desc : AEDesc) (index : Int) (desiredType : DescType)
  | AECoerceDesc (desc : AEDesc) (toType : DescType)
  | AEGetDescDataSize (desc : AEDesc)
  | NewHandle (size : Int)
  | AEGetDescData (desc : AEDesc) (size : Int)
  | FSResolveAlias (aliasData : AEDesc)
  | FSGetCatalogInfo (ref : FSRef) (whichInfo : Nat)
  | AECreateList
  | AEPutKeyPtr (record : AERecord) (item : KeyedItem)
  | AEPutDesc (list : AEDescList) (index : Int) (record : AERecord)
  | LSFindApplicationForInfo (creator : Nat) (bundleID : String) (name : String)
  | LSOpenFromRefSpec (spec : LSLaunchFSRefSpec)
  | AECreateDesc (typeCode : DescType) (data : String)
  | AECreateAppleEvent (eventClass : Nat) (eventID : Nat) (target : AEDesc)
      (returnID : Int) (transactionID : Int)
  | CFURLCreateFromFSRef (ref : FSRef)
  | CFURLCopyFileSystemPath (url : Nat)
  | CFStringGetLength (s : String)
  | CFStringGetMaximumSizeForEncoding (length : Int)
  | malloc (size : Int)
  | CFStringGetCString (s : String) (bufferSize : Int)
  | AEPutParamDesc (event : AppleEvent) (keyword : AEKeyword) (param : AEDesc)
  | AESend (event : AppleEvent) (sendMode : Int) (sendPriority : Int) (timeOut : Int)
  deriving DecidableEq, Repr

/-- The answers of the system to the calls of the plug-in.  A status field is the
returned `OSStatus`; where a call has an output the field pairs the status with it.
`NewHandle`, `malloc` and `CFStringGetCString` answer whether they succeeded
(a non-`NULL` pointer, `true`).  `FSResolveAlias` is asked with the descriptor whose
data was copied into the alias handle.  An answer depends on the arguments of the call
only. -/
structure World where
  AECountItems : AEDesc → OSStatus × Int
  AEGetNthDesc : AEDesc → Int → DescType → OSStatus × AEDesc
  AECoerceDesc : AEDesc → DescType → OSStatus × AEDesc
  AEGetDescDataSize : AEDesc → Int
  NewHandle : Int → Bool
  AEGetDescData : AEDesc → Int → OSStatus
  FSResolveAlias : AEDesc → OSStatus × FSRef
  FSGetCatalogInfo : FSRef → Nat → OSStatus × Nat
  AECreateList : OSStatus
  AEPutKeyPtr : AERecord → KeyedItem → OSStatus
  AEPutDesc : AEDescList → Int → AERecord → OSStatus
  LSFindApplicationForInfo : Nat → String → String → OSStatus × FSRef
  LSOpenFromRefSpec : LSLaunchFSRefSpec → OSStatus
  AECreateDesc : DescType → String → OSStatus
  AECreateAppleEvent : Nat → Nat → AEDesc → Int → Int → OSStatus
  CFURLCreateFromFSRef : FSRef → Option Nat
  CFURLCopyFileSystemPath : Nat → String
  CFStringGetLength : String → Int
  CFStringGetMaximumSizeForEncoding : Int → Int
  malloc : Int → Bool
  CFStringGetCString : String → Int → Bool
  AEPutParamDesc : AppleEvent → AEKeyword → AEDesc → OSStatus
  AESend : AppleEvent → Int → Int → Int → OSStatus
  indeterminateFSRef : FSRef

/-- How a run ends: the function returns, or the run hands an unassigned pointer to a
system call, after which the behaviour of the source is undefined. -/
inductive Completion where
  | returned
  | undefined
  deriving DecidableEq, Repr

/-! ## The functions of `TerminalHere.c` -/

/-- The tail of `getFSRefFromAEDesc` (source lines 294-323), entered with the
descriptor to use once it is known to be of `typeAlias`: size the data, allocate the
alias handle, copy the data, resolve the alias. -/
def resolveAliasData (w : World) (ref : FSRef) (descToUse : AEDesc) :
    Bool × FSRef × List Call :=
  let dataSize := w.AEGetDescDataSize descToUse
  let t1 := [Call.AEGetDescDataSize descToUse, Call.NewHandle dataSize]
  if w.NewHandle dataSize = false then (false, ref, t1)
  else
    let err := w.AEGetDescData descToUse dataSize
    let t2 := t1 ++ [Call.AEGetDescData descToUse dataSize]
    if err ≠ noErr then (false, ref, t2)
    else
      let resolved := w.FSResolveAlias descToUse
      let t3 := t2 ++ [Call.FSResolveAlias descToUse]
      if resolved.1 ≠ noErr then (false, ref, t3)
      else (true, resolved.2, t3)

/-- Translation of `getFSRefFromAEDesc`: gets an `FSRef` from a descriptor that can be
coerced to `typeAlias`.  Returns the Boolean result, the content of `*ref` on return
and the calls made. -/
def getFSRefFromAEDesc (w : World) (ref : FSRef) (descRef : AEDesc) :
    Bool × FSRef × List Call :=
  if descRef.descriptorType ≠ typeAlias then
    let coerced := w.AECoerceDesc descRef typeAlias
    let t0 := [Call.AECoerceDesc descRef typeAlias]
    if coerced.1 ≠ noErr then (false, ref, t0)
    else if coerced.2.descriptorType ≠ typeAlias then (false, ref, t0)
    else
      let r := resolveAliasData w ref coerced.2
      (r.1, r.2.1, t0 ++ r.2.2)
  else resolveAliasData w ref descRef

/-- Translation of `getSelectedFile`: returns the status, the content of `*file` on
return and the calls made.  `err` starts as `noErr`; in the list branch it is
assigned by `AECountItems`, by the `count > 1` test and by `AEGetNthDesc`, and by
nothing after that; in the scalar branch it is assigned when `getFSRefFromAEDesc`
returns false. -/
def getSelectedFile (w : World) (file : FSRef) (desc : AEDesc) :
    OSStatus × FSRef × List Call :=
  if desc.descriptorType = typeAEList then
    let counted := w.AECountItems desc
    let t1 := [Call.AECountItems desc]
    if counted.1 ≠ noErr then (counted.1, file, t1)
    else if counted.2 > 1 then (errAEWrongDataType, file, t1)
    else
      let got := w.AEGetNthDesc desc 1 typeWildCard
      let t2 := t1 ++ [Call.AEGetNthDesc desc 1 typeWildCard]
      if got.1 ≠ noErr then (got.1, file, t2)
      else
        let err := got.1
        let r := getFSRefFromAEDesc w file got.2
        if r.1 = false then (err, r.2.1, t2 ++ r.2.2)
        else (err, r.2.1, t2 ++ r.2.2)
  else
    let r := getFSRefFromAEDesc w file desc
    if r.1 = false then (errAEWrongDataType, r.2.1, r.2.2)
    else (noErr, r.2.1, r.2.2)

/-- Translation of `createFileNameFromFSRef`: the POSIX path of `ref`.  When
`CFURLCreateFromFSRef` returns `NULL` the source returns its local `cfString` without
having assigned it: the result is `none`, an unassigned pointer. -/
def createFileNameFromFSRef (w : World) (ref : FSRef) : Option String × List Call :=
  match w.CFURLCreateFromFSRef ref with
  | some url =>
      (some (w.CFURLCopyFileSystemPath url),
        [Call.CFURLCreateFromFSRef ref, Call.CFURLCopyFileSystemPath url])
  | none => (none, [Call.CFURLCreateFromFSRef ref])

/-- Translation of `appendMenuItem`: builds the command record (name, then command id)
and appends it to the command list with `AEPutDesc` at index 0, which adds at the end.
Returns the status, the command list on return and the calls made. -/
def appendMenuItem (w : World) (commandList : AEDescList) (menuName : String)
    (commandId : Int) : OSStatus × AEDescList × List Call :=
  let err := w.AECreateList
  let t1 := [Call.AECreateList]
  if err ≠ noErr then (err, commandList, t1)
  else
    let command0 : AERecord := []
    let nameItem : KeyedItem := ⟨keyAEName, typeCFStringRef, KeyData.cfString menuName⟩
    let err := w.AEPutKeyPtr command0 nameItem
    let t2 := t1 ++ [Call.AEPutKeyPtr command0 nameItem]
    if err ≠ noErr then (err, commandList, t2)
    else
      let command1 : AERecord := command0 ++ [nameItem]
      let idItem : KeyedItem :=
        ⟨keyContextualMenuCommandID, typeLongInteger, KeyData.long commandId⟩
      let err := w.AEPutKeyPtr command1 idItem
      let t3 := t2 ++ [Call.AEPutKeyPtr command1 idItem]
      if err ≠ noErr then (err, commandList, t3)
      else
        let command2 : AERecord := command1 ++ [idItem]
        let err := w.AEPutDesc commandList 0 command2
        let t4 := t3 ++ [Call.AEPutDesc commandList 0 command2]
        if err ≠ noErr then (err, commandList, t4)
        else (err, commandList ++ [command2], t4)

/-- Translation of `appendMenuSeparator`. -/
def appendMenuSeparator (w : World) (commandList : AEDescList) :
    OSStatus × AEDescList × List Call :=
  appendMenuItem w commandList "-" kSeparatorMenuCommandId

/-- Translation of `isDirectory`.  `nodeFlags` is a `UInt16` field. -/
def isDirectory (w : World) (ref : FSRef) : Bool × List Call :=
  let got := w.FSGetCatalogInfo ref kFSCatInfoNodeFlags
  let t1 := [Call.FSGetCatalogInfo ref kFSCatInfoNodeFlags]
  if got.1 ≠ noErr then (false, t1)
  else
    let nodeFlags := got.2 % 2 ^ 16
    (decide (nodeFlags &&& kFSNodeIsDirectoryMask = kFSNodeIsDirectoryMask), t1)

/-- Translation of `examineContext`: returns the status, the command list on return
and the calls made.  The statuses of the two append calls are discarded, as in the
source. -/
def examineContext (w : World) (context : AEDesc) (commandList : AEDescList) :
    OSStatus × AEDescList × List Call :=
  let sel := getSelectedFile w w.indeterminateFSRef context
  if sel.1 ≠ noErr then (sel.1, commandList, sel.2.2)
  else
    let dir := isDirectory w sel.2.1
    if dir.1 then
      let a1 := appendMenuSeparator w commandList
      let a2 := appendMenuItem w a1.2.1 "Open Terminal Here" kTerminalHereMenuCommandId
      (noErr, a2.2.1, sel.2.2 ++ dir.2 ++ a1.2.2 ++ a2.2.2)
    else (noErr, commandList, sel.2.2 ++ dir.2)

/-- Translation of `createUtf8StringFromCFString`: the C string, or `none` for
`NULL`.  The text of the C string is represented by the string it encodes. -/
def createUtf8StringFromCFString (w : World) (cfString : String) :
    Option String × List Call :=
  let charLength := w.CFStringGetLength cfString
  let byteSize := w.CFStringGetMaximumSizeForEncoding charLength
  let t1 := [Call.CFStringGetLength cfString,
    Call.CFStringGetMaximumSizeForEncoding charLength, Call.malloc (byteSize + 1)]
  if w.malloc (byteSize + 1) = false then (none, t1)
  else
    let t2 := t1 ++ [Call.CFStringGetCString cfString byteSize]
    if w.CFStringGetCString cfString byteSize = false then (none, t2)
    else (some cfString, t2)

/-- Translation of `openTerminal`: how the run ends and the calls made, in order.  Each
`require_noerr` and the `commandUtf8 == NULL` test leave for `openTerminal_error`,
where only memory is released.  The result of `createFileNameFromFSRef` is not tested:
it is appended to the command string by `CFStringAppend` and released by `CFRelease`
as it comes, so an unassigned pointer makes the run undefined. -/
def openTerminal (w : World) (ref : FSRef) : Completion × List Call :=
  let terminalBundleId := "com.apple.Terminal"
  let found := w.LSFindApplicationForInfo kLSUnknownCreator "com.apple.Terminal" "Terminal.app"
  let t1 := [Call.LSFindApplicationForInfo kLSUnknownCreator "com.apple.Terminal" "Terminal.app"]
  if found.1 ≠ noErr then (Completion.returned, t1)
  else
    let launchSpec : LSLaunchFSRefSpec := ⟨found.2, 0, kLSLaunchDefaults⟩
    let t2 := t1 ++ [Call.LSOpenFromRefSpec launchSpec]
    if w.LSOpenFromRefSpec launchSpec ≠ noErr then (Completion.returned, t2)
    else
      let cdEventDesc : AEDesc :=
        ⟨typeApplicationBundleID, AEDataStorage.chars terminalBundleId⟩
      let t3 := t2 ++ [Call.AECreateDesc typeApplicationBundleID terminalBundleId]
      if w.AECreateDesc typeApplicationBundleID terminalBundleId ≠ noErr then
        (Completion.returned, t3)
      else
        let cdEvent : AppleEvent :=
          ⟨kAECoreSuite, kAEDoScript, cdEventDesc, kAutoGenerateReturnID,
            kAnyTransactionID, []⟩
        let t4 := t3 ++ [Call.AECreateAppleEvent kAECoreSuite kAEDoScript cdEventDesc
          kAutoGenerateReturnID kAnyTransactionID]
        if w.AECreateAppleEvent kAECoreSuite kAEDoScript cdEventDesc
            kAutoGenerateReturnID kAnyTransactionID ≠ noErr then (Completion.returned, t4)
        else
          let pathStr := createFileNameFromFSRef w ref
          match pathStr.1 with
          | none => (Completion.undefined, t4 ++ pathStr.2)
          | some path =>
            let commandStr := "" ++ "cd \"" ++ path ++ "\""
            let commandUtf8 := createUtf8StringFromCFString w commandStr
            let t5 := t4 ++ pathStr.2 ++ commandUtf8.2
            match commandUtf8.1 with
            | none => (Completion.returned, t5)
            | some text =>
              let parameters : AEDesc := ⟨typeUTF8Text, AEDataStorage.chars text⟩
              let t6 := t5 ++ [Call.AECreateDesc typeUTF8Text text]
              if w.AECreateDesc typeUTF8Text text ≠ noErr then (Completion.returned, t6)
              else
                let t7 := t6 ++ [Call.AEPutParamDesc cdEvent kAECommandClass parameters]
                if w.AEPutParamDesc cdEvent kAECommandClass parameters ≠ noErr then
                  (Completion.returned, t7)
                else
                  let cdEventSent : AppleEvent :=
                    ⟨cdEvent.eventClass, cdEvent.eventID, cdEvent.target, cdEvent.returnID,
                      cdEvent.transactionID,
                      cdEvent.params ++ [(kAECommandClass, parameters)]⟩
                  (Completion.returned,
                    t7 ++ [Call.AESend cdEventSent kAENoReply kAENormalPriority
                      kAEDefaultTimeout])

/-- Translation of `handleSelection`: the returned status and the calls made.  The
local `file` is not initialised before `getSelectedFile` is handed its address.  The
status is `none` when the run of `openTerminal` is undefined, so that
`return noErr` is not reached by defined behaviour. -/
def handleSelection (w : World) (context : AEDesc) (commandId : Int) :
    Option OSStatus × List Call :=
  if commandId = kTerminalHereMenuCommandId then
    let sel := getSelectedFile w w.indeterminateFSRef context
    if sel.1 = noErr then
      let opened := openTerminal w sel.2.1
      match opened.1 with
      | Completion.returned => (some noErr, sel.2.2 ++ opened.2)
      | Completion.undefined => (none, sel.2.2 ++ opened.2)
    else (some noErr, sel.2.2)
  else (some noErr, [])

/-! ## Reading a trace -/

/-- Whether a call is an application lookup. -/
def Call.isLookup : Call → Bool
  | Call.LSFindApplicationForInfo _ _ _ => true
  | _ => false

/-- Whether a call is an application launch-or-activate request. -/
def Call.isLaunch : Call → Bool
  | Call.LSOpenFromRefSpec _ => true
  | _ => false

/-- Whether a call sends a scripting message. -/
def Call.isSend : Call → Bool
  | Call.AESend _ _ _ _ => true
  | _ => false

/-- The event that a call sends, if the call is a send. -/
def Call.sentEvent : Call → Option AppleEvent
  | Call.AESend event _ _ _ => some event
  | _ => none

/-- The events sent by the calls of a trace, in order. -/
def sentEvents (calls : List Call) : List AppleEvent :=
  calls.filterMap Call.sentEvent

/-- No call of the trace looks up the terminal application, launches it or sends it a
message. -/
def noDispatchCall (calls : List Call) : Prop :=
  ∀ c ∈ calls, c.isLookup = false ∧ c.isLaunch = false ∧ c.isSend = false

instance (calls : List Call) : Decidable (noDispatchCall calls) := by
  unfold noDispatchCall
  exact inferInstance

/-! ## The steps of the dispatch, by name -/

/-- The launch request that `openTerminal` fills in: the application found by
`LSFindApplicationForInfo`, no documents, default flags. -/
def launchSpec (w : World) : LSLaunchFSRefSpec :=
  ⟨(w.LSFindApplicationForInfo kLSUnknownCreator "com.apple.Terminal" "Terminal.app").2, 0,
    kLSLaunchDefaults⟩

/-- The address descriptor `cdEventDesc` of `openTerminal`: the bundle identifier of
the terminal application. -/
def cdEventDesc : AEDesc :=
  ⟨typeApplicationBundleID, AEDataStorage.chars "com.apple.Terminal"⟩

/-- The event `cdEvent` of `openTerminal` as created, before the parameter is
attached. -/
def cdEvent : AppleEvent :=
  ⟨kAECoreSuite, kAEDoScript, cdEventDesc, kAutoGenerateReturnID, kAnyTransactionID, []⟩

/-- The command string `commandStr` that `openTerminal` builds from the path string. -/
def commandStr (path : String) : String :=
  "" ++ "cd \"" ++ path ++ "\""

/-- The descriptor `parameters` of `openTerminal`: UTF-8 text. -/
def parameters (text : String) : AEDesc := ⟨typeUTF8Text, AEDataStorage.chars text⟩

/-- Every system call of the dispatch for `ref` succeeds, and the path query yields
`path`: the application lookup, the launch, the creation of the address descriptor and
of the event, the path query, the allocation and conversion of the UTF-8 text, the
creation and attachment of the text parameter, and the send. -/
def dispatchCallsSucceed (w : World) (ref : FSRef) (path : String) : Prop :=
  (w.LSFindApplicationForInfo kLSUnknownCreator "com.apple.Terminal" "Terminal.app").1 = noErr ∧
  w.LSOpenFromRefSpec (launchSpec w) = noErr ∧
  w.AECreateDesc typeApplicationBundleID "com.apple.Terminal" = noErr ∧
  w.AECreateAppleEvent kAECoreSuite kAEDoScript cdEventDesc kAutoGenerateReturnID
    kAnyTransactionID = noErr ∧
  (createFileNameFromFSRef w ref).1 = some path ∧
  w.malloc (w.CFStringGetMaximumSizeForEncoding
    (w.CFStringGetLength (commandStr path)) + 1) = true ∧
  w.CFStringGetCString (commandStr path) (w.CFStringGetMaximumSizeForEncoding
    (w.CFStringGetLength (commandStr path))) = true ∧
  w.AECreateDesc typeUTF8Text (commandStr path) = noErr ∧
  w.AEPutParamDesc cdEvent kAECommandClass (parameters (commandStr path)) = noErr ∧
  w.AESend ⟨kAECoreSuite, kAEDoScript, cdEventDesc, kAutoGenerateReturnID,
    kAnyTransactionID, [(kAECommandClass, parameters (commandStr path))]⟩ kAENoReply
    kAENormalPriority kAEDefaultTimeout = noErr

instance (w : World) (ref : FSRef) (path : String) :
    Decidable (dispatchCallsSucceed w ref path) := by
  unfold dispatchCallsSucceed
  exact inferInstance

/-! ## Describing a selection -/

/-- The null descriptor `{typeNull, NULL}`. -/
def nullDesc : AEDesc := ⟨typeNull, AEDataStorage.null⟩

/-- What the Apple Event Manager answers for a list descriptor holding exactly the
descriptors `items`: `AECountItems` yields their number, and `AEGetNthDesc` at index 1
yields the first of them, or `errAEDescNotFound` when there is none. -/
def holdsItems (w : World) (desc : AEDesc) (items : List AEDesc) : Prop :=
  desc.descriptorType = typeAEList ∧
  w.AECountItems desc = (noErr, (items.length : Int)) ∧
  w.AEGetNthDesc desc 1 typeWildCard =
    (match items with
      | [] => (errAEDescNotFound, nullDesc)
      | d :: _ => (noErr, d))

instance (w : World) (desc : AEDesc) (items : List AEDesc) :
    Decidable (holdsItems w desc items) := by
  unfold holdsItems
  exact inferInstance

/-- The selection context holds the single descriptor `d`: it is the scalar descriptor
`d` itself, or a list holding exactly `d`. -/
def singleSelection (w : World) (context : AEDesc) (d : AEDesc) : Prop :=
  (context.descriptorType ≠ typeAEList ∧ context = d) ∨ holdsItems w context [d]

instance (w : World) (context d : AEDesc) : Decidable (singleSelection w context d) := by
  unfold singleSelection
  exact inferInstance

/-- The command record of the separator entry: label `-`, command id 7000. -/
def separatorEntry : AERecord :=
  [⟨keyAEName, typeCFStringRef, KeyData.cfString "-"⟩,
   ⟨keyContextualMenuCommandID, typeLongInteger, KeyData.long 7000⟩]

/-- The command record of the action entry: label `Open Terminal Here`, command id
7001. -/
def openTerminalHereEntry : AERecord :=
  [⟨keyAEName, typeCFStringRef, KeyData.cfString "Open Terminal Here"⟩,
   ⟨keyContextualMenuCommandID, typeLongInteger, KeyData.long 7001⟩]

/-- The Apple Event Manager answers `noErr` to the calls that build the two entries and
append them to the command list `L`: `AECreateList`, the two `AEPutKeyPtr` of each
record (name, then command id on the record holding the name), and `AEPutDesc` of the
separator record on `L` and of the action record on `L` followed by the separator. -/
def appendCallsSucceed (w : World) (L : AEDescList) : Prop :=
  w.AECreateList = noErr ∧
  w.AEPutKeyPtr [] ⟨keyAEName, typeCFStringRef, KeyData.cfString "-"⟩ = noErr ∧
  w.AEPutKeyPtr [⟨keyAEName, typeCFStringRef, KeyData.cfString "-"⟩]
    ⟨keyContextualMenuCommandID, typeLongInteger, KeyData.long 7000⟩ = noErr ∧
  w.AEPutDesc L 0 separatorEntry = noErr ∧
  w.AEPutKeyPtr [] ⟨keyAEName, typeCFStringRef, KeyData.cfString "Open Terminal Here"⟩ =
    noErr ∧
  w.AEPutKeyPtr [⟨keyAEName, typeCFStringRef, KeyData.cfString "Open Terminal Here"⟩]
    ⟨keyContextualMenuCommandID, typeLongInteger, KeyData.long 7001⟩ = noErr ∧
  w.AEPutDesc (L ++ [separatorEntry]) 0 openTerminalHereEntry = noErr

instance (w : World) (L : AEDescList) : Decidable (appendCallsSucceed w L) := by
  unfold appendCallsSucceed
  exact inferInstance

/-! ## An example desktop

A concrete `World` used to evaluate the functions: the folders
`/Users/alice/Projects` and `/Users/alice/My"Folder`, the file
`/Users/alice/notes.txt`, an item that no longer coerces to an alias, and four lists
over them. -/

/-- Alias descriptor of the folder `/Users/alice/Projects`. -/
def projectsAlias : AEDesc := ⟨typeAlias, AEDataStorage.stored 1⟩

/-- Alias descriptor of the file `/Users/alice/notes.txt`. -/
def notesAlias : AEDesc := ⟨typeAlias, AEDataStorage.stored 2⟩

/-- Alias descriptor of the folder `/Users/alice/My"Folder`. -/
def quotedAlias : AEDesc := ⟨typeAlias, AEDataStorage.stored 5⟩

/-- A text descriptor (type code `TEXT`) that cannot be coerced to an alias. -/
def staleItem : AEDesc := ⟨0x54455854, AEDataStorage.stored 3⟩

/-- A file URL descriptor (type code `furl`) that coerces to `projectsAlias`. -/
def projectsURL : AEDesc := ⟨0x6675726C, AEDataStorage.stored 4⟩

/-- The list holding `projectsAlias` only. -/
def oneFolderList : AEDesc := ⟨typeAEList, AEDataStorage.stored 10⟩

/-- The list holding nothing. -/
def emptyList : AEDesc := ⟨typeAEList, AEDataStorage.stored 11⟩

/-- The list holding `projectsAlias` and `notesAlias`. -/
def twoItemList : AEDesc := ⟨typeAEList, AEDataStorage.stored 12⟩

/-- The list holding `staleItem` only. -/
def staleList : AEDesc := ⟨typeAEList, AEDataStorage.stored 13⟩

/-- The example desktop, on which every call succeeds that can: `Terminal.app` is
installed (`FSRef` 7), memory is available, and the Apple Event Manager accepts every
record, descriptor, event and send.  Uninitialised `FSRef` storage holds 999, which
names no file system entry. -/
def desktop : World where
  AECountItems := fun d =>
    match d.dataHandle with
    | AEDataStorage.stored 10 => (noErr, 1)
    | AEDataStorage.stored 11 => (noErr, 0)
    | AEDataStorage.stored 12 => (noErr, 2)
    | AEDataStorage.stored 13 => (noErr, 1)
    | _ => (errAEWrongDataType, 0)
  AEGetNthDesc := fun d index _ =>
    match d.dataHandle, index with
    | AEDataStorage.stored 10, 1 => (noErr, projectsAlias)
    | AEDataStorage.stored 12, 1 => (noErr, projectsAlias)
    | AEDataStorage.stored 12, 2 => (noErr, notesAlias)
    | AEDataStorage.stored 13, 1 => (noErr, staleItem)
    | _, _ => (errAEDescNotFound, nullDesc)
  AECoerceDesc := fun d _ =>
    match d.dataHandle with
    | AEDataStorage.stored 4 => (noErr, projectsAlias)
    | _ => (-1700, nullDesc)
  AEGetDescDataSize := fun _ => 256
  NewHandle := fun _ => true
  AEGetDescData := fun _ _ => noErr
  FSResolveAlias := fun d =>
    match d.dataHandle with
    | AEDataStorage.stored 1 => (noErr, ⟨1⟩)
    | AEDataStorage.stored 2 => (noErr, ⟨2⟩)
    | AEDataStorage.stored 5 => (noErr, ⟨5⟩)
    | _ => (-43, ⟨0⟩)
  FSGetCatalogInfo := fun r _ =>
    match r.hidden with
    | 1 => (noErr, 0x0010)
    | 2 => (noErr, 0x0000)
    | 5 => (noErr, 0x0010)
    | 7 => (noErr, 0x0010)
    | _ => (-43, 0)
  AECreateList := noErr
  AEPutKeyPtr := fun _ _ => noErr
  AEPutDesc := fun _ _ _ => noErr
  LSFindApplicationForInfo := fun _ _ _ => (noErr, ⟨7⟩)
  LSOpenFromRefSpec := fun _ => noErr
  AECreateDesc := fun _ _ => noErr
  AECreateAppleEvent := fun _ _ _ _ _ => noErr
  CFURLCreateFromFSRef := fun r =>
    match r.hidden with
    | 1 => some 1
    | 2 => some 2
    | 5 => some 5
    | _ => none
  CFURLCopyFileSystemPath := fun url =>
    match url with
    | 1 => "/Users/alice/Projects"
    | 2 => "/Users/alice/notes.txt"
    | 5 => "/Users/alice/My\"Folder"
    | _ => ""
  CFStringGetLength := fun s => s.length
  CFStringGetMaximumSizeForEncoding := fun n => 3 * n
  malloc := fun _ => true
  CFStringGetCString := fun _ _ => true
  AEPutParamDesc := fun _ _ _ => noErr
  AESend := fun _ _ _ _ => noErr
  indeterminateFSRef := ⟨999⟩

/-- The example desktop out of memory for the command list: `AEPutDesc` answers
`memFullErr` (-108). -/
def desktopListFull : World :=
  { desktop with AEPutDesc := fun _ _ _ => -108 }

/-- The example desktop out of memory for a new record: `AECreateList` answers
`memFullErr` (-108). -/
def desktopNoRecord : World :=
  { desktop with AECreateList := -108 }

/-- The example desktop out of memory for a record key: `AEPutKeyPtr` answers
`memFullErr` (-108). -/
def desktopNoKey : World :=
  { desktop with AEPutKeyPtr := fun _ _ => -108 }

/-- The example desktop on which no URL can be made for the folder
`/Users/alice/Projects`: `CFURLCreateFromFSRef` answers `NULL`. -/
def desktopNoURL : World :=
  { desktop with CFURLCreateFromFSRef := fun _ => none }

/-- The example desktop without `Terminal.app`: `LSFindApplicationForInfo` answers
`kLSApplicationNotFoundErr` (-10814). -/
def desktopNoTerminal : World :=
  { desktop with LSFindApplicationForInfo := fun _ _ _ => (-10814, ⟨0⟩) }

/-- The example desktop with a terminal application that cannot be launched:
`LSOpenFromRefSpec` answers `kLSUnknownErr` (-10810), and so does every later call of
the dispatch that returns a status; memory for the UTF-8 text is refused. -/
def desktopNoDispatch : World :=
  { desktop with
    LSOpenFromRefSpec := fun _ => -10810
    AECreateDesc := fun _ _ => -10810
    AECreateAppleEvent := fun _ _ _ _ _ => -10810
    malloc := fun _ => false
    AEPutParamDesc := fun _ _ _ => -10810 }

/-! ## Lemmas on the selection resolver -/

/-- On a scalar descriptor `getSelectedFile` is `getFSRefFromAEDesc`, with
`errAEWrongDataType` for false and `noErr` for true. -/
theorem getSelectedFile_scalar (w : World) (file : FSRef) (desc : AEDesc)
    (hscalar : desc.descriptorType ≠ typeAEList) :
    getSelectedFile w file desc =
      (if (getFSRefFromAEDesc w file desc).1 = false then errAEWrongDataType else noErr,
        (getFSRefFromAEDesc w file desc).2.1, (getFSRefFromAEDesc w file desc).2.2) := by
  unfold getSelectedFile
  rw [if_neg hscalar]
  dsimp only
  split <;> rfl

/-- On a list holding exactly one descriptor `getSelectedFile` returns `noErr`,
whatever `getFSRefFromAEDesc` returns for that descriptor. -/
theorem getSelectedFile_one_item (w : World) (file : FSRef) (desc d : AEDesc)
    (hlist : holdsItems w desc [d]) :
    getSelectedFile w file desc =
      (noErr, (getFSRefFromAEDesc w file d).2.1,
        [Call.AECountItems desc, Call.AEGetNthDesc desc 1 typeWildCard] ++
          (getFSRefFromAEDesc w file d).2.2) := by
  obtain ⟨htype, hcount, hget⟩ := hlist
  unfold getSelectedFile
  rw [if_pos htype]
  simp only [hcount, hget, List.length_singleton, Nat.cast_one, ne_eq, not_true_eq_false,
    if_false, gt_iff_lt, lt_self_iff_false, ite_self, List.singleton_append,
    List.cons_append, List.nil_append]

/-- On a list holding two or more descriptors `getSelectedFile` returns
`errAEWrongDataType` after counting, and leaves `*file` alone. -/
theorem getSelectedFile_many_items (w : World) (file : FSRef) (desc : AEDesc)
    (items : List AEDesc) (hlist : holdsItems w desc items) (hmany : 2 ≤ items.length) :
    getSelectedFile w file desc = (errAEWrongDataType, file, [Call.AECountItems desc]) := by
  obtain ⟨htype, hcount, _⟩ := hlist
  unfold getSelectedFile
  rw [if_pos htype]
  have hgt : ((items.length : Nat) : Int) > 1 := by omega
  simp only [hcount, ne_eq, not_true_eq_false, if_false, hgt, if_true]

/-- On a list holding nothing `getSelectedFile` returns the `errAEDescNotFound` of
`AEGetNthDesc`, and leaves `*file` alone. -/
theorem getSelectedFile_no_item (w : World) (file : FSRef) (desc : AEDesc)
    (hlist : holdsItems w desc []) :
    getSelectedFile w file desc =
      (errAEDescNotFound, file,
        [Call.AECountItems desc, Call.AEGetNthDesc desc 1 typeWildCard]) := by
  obtain ⟨htype, hcount, hget⟩ := hlist
  unfold getSelectedFile
  rw [if_pos htype]
  simp only [hcount, hget, List.length_nil, Nat.cast_zero, ne_eq, not_true_eq_false,
    if_false, gt_iff_lt, List.singleton_append]
  rw [if_neg (by decide), if_pos (by decide)]

/-- For a single selection whose descriptor `getFSRefFromAEDesc` resolves,
`getSelectedFile` returns `noErr` and the resolved `FSRef`. -/
theorem getSelectedFile_resolved (w : World) (file : FSRef) (context d : AEDesc)
    (hsel : singleSelection w context d)
    (hres : (getFSRefFromAEDesc w file d).1 = true) :
    (getSelectedFile w file context).1 = noErr ∧
      (getSelectedFile w file context).2.1 = (getFSRefFromAEDesc w file d).2.1 := by
  rcases hsel with ⟨hscalar, rfl⟩ | hlist
  · rw [getSelectedFile_scalar w file context hscalar]
    simp [hres]
  · rw [getSelectedFile_one_item w file context d hlist]
    exact ⟨rfl, rfl⟩

/-- The command list after `appendMenuItem`: one more record when the status is
`noErr`, unchanged otherwise. -/
theorem appendMenuItem_list (w : World) (commandList : AEDescList) (menuName : String)
    (commandId : Int) :
    (appendMenuItem w commandList menuName commandId).2.1 =
      if (appendMenuItem w commandList menuName commandId).1 = noErr then
        commandList ++ [[⟨keyAEName, typeCFStringRef, KeyData.cfString menuName⟩,
          ⟨keyContextualMenuCommandID, typeLongInteger, KeyData.long commandId⟩]]
      else commandList := by
  unfold appendMenuItem
  dsimp only
  split_ifs <;> simp_all

/-! ## Lemmas on traces -/

/-- A trace without dispatch call counts no lookup, no launch and no send, and sends no
event. -/
theorem noDispatchCall_counts (calls : List Call) (h : noDispatchCall calls) :
    calls.countP Call.isLookup = 0 ∧ calls.countP Call.isLaunch = 0 ∧
      calls.countP Call.isSend = 0 ∧ sentEvents calls = [] := by
  induction calls with
  | nil => simp [sentEvents]
  | cons c rest ih =>
    have hc := h c (List.mem_cons_self c rest)
    have hrest := ih (fun x hx => h x (List.mem_cons_of_mem c hx))
    have hev : c.sentEvent = none := by
      cases c <;> simp_all [Call.isSend, Call.sentEvent]
    simp only [sentEvents] at hrest ⊢
    simp [List.countP_cons, hc.1, hc.2.1, hc.2.2, hrest.1, hrest.2.1, hrest.2.2.1,
      hrest.2.2.2, List.filterMap_cons, hev]

/-- The alias resolution makes no dispatch call. -/
theorem resolveAliasData_noDispatchCall (w : World) (ref : FSRef) (d : AEDesc) :
    noDispatchCall (resolveAliasData w ref d).2.2 := by
  unfold resolveAliasData noDispatchCall
  dsimp only
  split_ifs <;> simp [Call.isLookup, Call.isLaunch, Call.isSend]

/-- The function `getFSRefFromAEDesc` makes no dispatch call. -/
theorem getFSRefFromAEDesc_noDispatchCall (w : World) (ref : FSRef) (d : AEDesc) :
    noDispatchCall (getFSRefFromAEDesc w ref d).2.2 := by
  have hres := resolveAliasData_noDispatchCall w ref
  unfold getFSRefFromAEDesc
  dsimp only
  split_ifs
  · simp [noDispatchCall, Call.isLookup, Call.isLaunch, Call.isSend]
  · simp [noDispatchCall, Call.isLookup, Call.isLaunch, Call.isSend]
  · intro c hc
    rcases List.mem_append.mp hc with h | h
    · simp only [List.mem_singleton] at h
      subst h
      simp [Call.isLookup, Call.isLaunch, Call.isSend]
    · exact hres _ c h
  · exact hres d

/-- The selection resolver makes no dispatch call. -/
theorem getSelectedFile_noDispatchCall (w : World) (file : FSRef) (desc : AEDesc) :
    noDispatchCall (getSelectedFile w file desc).2.2 := by
  have hget := getFSRefFromAEDesc_noDispatchCall w file
  unfold getSelectedFile
  dsimp only
  split_ifs
  all_goals first
    | exact hget _
    | (intro c hc
       simp only [List.mem_append, List.mem_singleton, List.mem_cons, List.not_mem_nil,
         or_false] at hc
       rcases hc with (h | h) | h
       · subst h; simp [Call.isLookup, Call.isLaunch, Call.isSend]
       · subst h; simp [Call.isLookup, Call.isLaunch, Call.isSend]
       · exact hget _ c h)
    | (intro c hc
       simp only [List.mem_append, List.mem_singleton, List.mem_cons, List.not_mem_nil,
         or_false] at hc
       rcases hc with h | h
       · subst h; simp [Call.isLookup, Call.isLaunch, Call.isSend]
       · subst h; simp [Call.isLookup, Call.isLaunch, Call.isSend])
    | (intro c hc
       simp only [List.mem_append, List.mem_singleton, List.mem_cons, List.not_mem_nil,
         or_false] at hc
       subst hc; simp [Call.isLookup, Call.isLaunch, Call.isSend])

/-- The path query makes no dispatch call. -/
theorem createFileNameFromFSRef_noDispatchCall (w : World) (ref : FSRef) :
    noDispatchCall (createFileNameFromFSRef w ref).2 := by
  unfold createFileNameFromFSRef noDispatchCall
  split <;> simp [Call.isLookup, Call.isLaunch, Call.isSend]

/-- The UTF-8 conversion makes no dispatch call. -/
theorem createUtf8StringFromCFString_noDispatchCall (w : World) (cfString : String) :
    noDispatchCall (createUtf8StringFromCFString w cfString).2 := by
  unfold createUtf8StringFromCFString noDispatchCall
  dsimp only
  split_ifs <;> simp [Call.isLookup, Call.isLaunch, Call.isSend]

/-- The UTF-8 conversion yields either `NULL` or the text it was given. -/
theorem createUtf8StringFromCFString_text (w : World) (cfString text : String)
    (h : (createUtf8StringFromCFString w cfString).1 = some text) : text = cfString := by
  unfold createUtf8StringFromCFString at h
  dsimp only at h
  split_ifs at h
  simp_all

/-- The directory mask test is the test of bit 4. -/
theorem and_directoryMask (n : Nat) :
    n &&& kFSNodeIsDirectoryMask = kFSNodeIsDirectoryMask ↔ n.testBit 4 = true := by
  have hmask : kFSNodeIsDirectoryMask = 2 ^ 4 := rfl
  constructor
  · intro h
    have h4 := congrArg (fun x => Nat.testBit x 4) h
    simp only [Nat.testBit_and, hmask, Nat.testBit_two_pow_self, Bool.and_true] at h4
    exact h4
  · intro h
    apply Nat.eq_of_testBit_eq
    intro i
    rw [Nat.testBit_and, hmask, Nat.testBit_two_pow]
    by_cases hi : 4 = i
    · subst hi; simp [h]
    · simp [hi]

/-- What `appendMenuItem` does when the Apple Event Manager answers `noErr` to its four
calls: it returns `noErr` with the record appended at the end of the list. -/
theorem appendMenuItem_of_success (w : World) (commandList : AEDescList)
    (menuName : String) (commandId : Int)
    (hlist : w.AECreateList = noErr)
    (hname : w.AEPutKeyPtr [] ⟨keyAEName, typeCFStringRef, KeyData.cfString menuName⟩ = noErr)
    (hid : w.AEPutKeyPtr [⟨keyAEName, typeCFStringRef, KeyData.cfString menuName⟩]
      ⟨keyContextualMenuCommandID, typeLongInteger, KeyData.long commandId⟩ = noErr)
    (hput : w.AEPutDesc commandList 0
      [⟨keyAEName, typeCFStringRef, KeyData.cfString menuName⟩,
        ⟨keyContextualMenuCommandID, typeLongInteger, KeyData.long commandId⟩] = noErr) :
    (appendMenuItem w commandList menuName commandId).1 = noErr ∧
    (appendMenuItem w commandList menuName commandId).2.1 =
      commandList ++ [[⟨keyAEName, typeCFStringRef, KeyData.cfString menuName⟩,
        ⟨keyContextualMenuCommandID, typeLongInteger, KeyData.long commandId⟩]] := by
  unfold appendMenuItem
  simp only [hlist, hname, hid, hput, List.nil_append, List.singleton_append, ne_eq,
    not_true_eq_false, if_false, and_self]

/-- The trace of `openTerminal` when every call of the dispatch succeeds: the run
returns after one launch and one send, and the event sent carries the command string
as its only parameter. -/
theorem openTerminal_of_success (w : World) (ref : FSRef) (path : String)
    (hok : dispatchCallsSucceed w ref path) :
    (openTerminal w ref).1 = Completion.returned ∧
    (openTerminal w ref).2.countP Call.isLaunch = 1 ∧
    (openTerminal w ref).2.countP Call.isSend = 1 ∧
    sentEvents (openTerminal w ref).2 =
      [⟨kAECoreSuite, kAEDoScript, cdEventDesc, kAutoGenerateReturnID, kAnyTransactionID,
        [(kAECommandClass, parameters (commandStr path))]⟩] := by
  obtain ⟨hfind, hopen, haddr, hevent, hquery, hmalloc, hcstr, htext, hput, _⟩ := hok
  have hpath := noDispatchCall_counts _ (createFileNameFromFSRef_noDispatchCall w ref)
  have hutf := noDispatchCall_counts _
    (createUtf8StringFromCFString_noDispatchCall w (commandStr path))
  have hsome : (createUtf8StringFromCFString w (commandStr path)).1 =
      some (commandStr path) := by
    unfold createUtf8StringFromCFString
    dsimp only
    rw [if_neg (by simp [hmalloc]), if_neg (by simp [hcstr])]
  simp only [launchSpec, cdEventDesc, cdEvent, parameters, commandStr] at *
  unfold openTerminal
  simp only [hfind, hopen, haddr, hevent, hquery, hsome, htext, hput, ne_eq,
    not_true_eq_false, if_false, sentEvents, List.countP_append, List.filterMap_append,
    hpath, hutf]
  simp only [sentEvents, String.empty_append] at hpath hutf
  simp [List.countP_cons, Call.isLaunch, Call.isSend, Call.sentEvent, hpath, hutf]
  rw [hpath.2.2.2, hutf.2.2.2]
  rfl

/-- Every exit of `openTerminal`.  A failed lookup leaves the lookup as the only call.
A failed launch, address descriptor or event makes the run return without a send, and
so does, once the path query has yielded a path, a failed UTF-8 conversion, text
parameter or attachment.  The run is undefined exactly when the lookup, the launch,
the address descriptor and the event succeed and the path query yields an unassigned
pointer.  A run that returns has looked the application up once, launched it at most
once and sent at most one message. -/
theorem openTerminal_exits (w : World) (ref : FSRef) :
    ((w.LSFindApplicationForInfo kLSUnknownCreator "com.apple.Terminal"
        "Terminal.app").1 ≠ noErr →
      openTerminal w ref =
        (Completion.returned,
          [Call.LSFindApplicationForInfo kLSUnknownCreator "com.apple.Terminal"
            "Terminal.app"])) ∧
    ((w.LSOpenFromRefSpec (launchSpec w) ≠ noErr ∨
      w.AECreateDesc typeApplicationBundleID "com.apple.Terminal" ≠ noErr ∨
      w.AECreateAppleEvent kAECoreSuite kAEDoScript cdEventDesc kAutoGenerateReturnID
        kAnyTransactionID ≠ noErr) →
      (openTerminal w ref).1 = Completion.returned ∧
        (openTerminal w ref).2.countP Call.isSend = 0) ∧
    (∀ path, (createFileNameFromFSRef w ref).1 = some path →
      ((createUtf8StringFromCFString w (commandStr path)).1 = none ∨
        w.AECreateDesc typeUTF8Text (commandStr path) ≠ noErr ∨
        w.AEPutParamDesc cdEvent kAECommandClass (parameters (commandStr path)) ≠ noErr) →
      (openTerminal w ref).1 = Completion.returned ∧
        (openTerminal w ref).2.countP Call.isSend = 0) ∧
    ((openTerminal w ref).1 = Completion.undefined ↔
      ((w.LSFindApplicationForInfo kLSUnknownCreator "com.apple.Terminal"
          "Terminal.app").1 = noErr ∧
        w.LSOpenFromRefSpec (launchSpec w) = noErr ∧
        w.AECreateDesc typeApplicationBundleID "com.apple.Terminal" = noErr ∧
        w.AECreateAppleEvent kAECoreSuite kAEDoScript cdEventDesc kAutoGenerateReturnID
          kAnyTransactionID = noErr ∧
        (createFileNameFromFSRef w ref).1 = none)) ∧
    ((openTerminal w ref).1 = Completion.returned →
      (openTerminal w ref).2.countP Call.isLookup = 1 ∧
      (openTerminal w ref).2.countP Call.isLaunch ≤ 1 ∧
      (openTerminal w ref).2.countP Call.isSend ≤ 1) := by
  obtain ⟨hp1, hp2, hp3, _⟩ :=
    noDispatchCall_counts _ (createFileNameFromFSRef_noDispatchCall w ref)
  have hutf := fun s => noDispatchCall_counts _
    (createUtf8StringFromCFString_noDispatchCall w s)
  have htext := createUtf8StringFromCFString_text w
  simp only [launchSpec, cdEventDesc, cdEvent, parameters, commandStr]
  unfold openTerminal
  dsimp only
  by_cases h1 : (w.LSFindApplicationForInfo kLSUnknownCreator "com.apple.Terminal"
      "Terminal.app").1 = noErr
  swap
  · simp only [ne_eq, h1, not_false_eq_true, if_true]
    refine ⟨fun _ => ?_, fun _ => ?_, fun _ _ _ => ?_, ?_, fun _ => ?_⟩ <;>
      simp [List.countP_cons, Call.isLookup, Call.isLaunch, Call.isSend]
  simp only [ne_eq, h1, not_true_eq_false, if_false]
  refine ⟨fun h => h.elim, ?_⟩
  by_cases h2 : w.LSOpenFromRefSpec ⟨(w.LSFindApplicationForInfo kLSUnknownCreator
      "com.apple.Terminal" "Terminal.app").2, 0, kLSLaunchDefaults⟩ = noErr
  swap
  · simp only [h2, not_false_eq_true, if_true]
    refine ⟨fun _ => ?_, fun _ _ _ => ?_, ?_, fun _ => ?_⟩ <;>
      simp [List.countP_cons, Call.isLookup, Call.isLaunch, Call.isSend]
  simp only [h2, not_true_eq_false, if_false]
  by_cases h3 : w.AECreateDesc typeApplicationBundleID "com.apple.Terminal" = noErr
  swap
  · simp only [h3, not_false_eq_true, if_true]
    refine ⟨fun _ => ?_, fun _ _ _ => ?_, ?_, fun _ => ?_⟩ <;>
      simp [List.countP_cons, Call.isLookup, Call.isLaunch, Call.isSend]
  simp only [h3, not_true_eq_false, if_false]
  by_cases h4 : w.AECreateAppleEvent kAECoreSuite kAEDoScript
      ⟨typeApplicationBundleID, AEDataStorage.chars "com.apple.Terminal"⟩
      kAutoGenerateReturnID kAnyTransactionID = noErr
  swap
  · simp only [h4, not_false_eq_true, if_true]
    refine ⟨fun _ => ?_, fun _ _ _ => ?_, ?_, fun _ => ?_⟩ <;>
      simp [List.countP_cons, Call.isLookup, Call.isLaunch, Call.isSend]
  simp only [h4, not_true_eq_false, if_false, false_or, true_and]
  cases hq : (createFileNameFromFSRef w ref).1 with
  | none =>
    refine ⟨fun h => absurd h (by simp), fun path hpath => ?_, ?_, fun h => ?_⟩
    · simp at hpath
    · simp
    · simp at h
  | some path =>
    dsimp only
    refine ⟨fun h => absurd h (by simp), ?_⟩
    have hpath_eq : ∀ path2, some path = some path2 → path2 = path :=
      fun path2 h => (Option.some.inj h).symm
    generalize hcmd : "" ++ "cd \"" ++ path ++ "\"" = cmd
    obtain ⟨hu1, hu2, hu3, _⟩ := hutf cmd
    have htext := htext cmd
    cases h5 : (createUtf8StringFromCFString w cmd).1 with
    | none =>
      refine ⟨fun path2 hpath _ => ?_, ?_, fun _ => ?_⟩ <;>
        simp [List.countP_cons, List.countP_append, Call.isLookup, Call.isLaunch,
          Call.isSend, hp1, hp2, hp3, hu1, hu2, hu3]
    | some text =>
      have hEq := htext text h5
      subst hEq
      dsimp only
      by_cases h6 : w.AECreateDesc typeUTF8Text text = noErr
      swap
      · simp only [h6, not_false_eq_true, if_true]
        refine ⟨fun path2 hpath _ => ?_, ?_, fun _ => ?_⟩ <;>
          simp [List.countP_cons, List.countP_append, Call.isLookup, Call.isLaunch,
            Call.isSend, hp1, hp2, hp3, hu1, hu2, hu3]
      simp only [h6, not_true_eq_false, if_false]
      by_cases h7 : w.AEPutParamDesc
          ⟨kAECoreSuite, kAEDoScript,
            ⟨typeApplicationBundleID, AEDataStorage.chars "com.apple.Terminal"⟩,
            kAutoGenerateReturnID, kAnyTransactionID, []⟩ kAECommandClass
          ⟨typeUTF8Text, AEDataStorage.chars text⟩ = noErr
      swap
      · simp only [h7, not_false_eq_true, if_true]
        refine ⟨fun path2 hpath _ => ?_, ?_, fun _ => ?_⟩ <;>
          simp [List.countP_cons, List.countP_append, Call.isLookup, Call.isLaunch,
            Call.isSend, hp1, hp2, hp3, hu1, hu2, hu3]
      simp only [h7, not_true_eq_false, if_false]
      refine ⟨fun path2 hpath h => ?_, ?_, fun _ => ?_⟩
      · have hp := hpath_eq path2 hpath
        subst hp
        rw [hcmd] at h
        rcases h with h | h | h
        · rw [h5] at h; exact absurd h (by simp)
        · exact absurd h6 h
        · exact absurd h7 h
      · simp
      · simp [List.countP_cons, List.countP_append, Call.isLookup, Call.isLaunch,
          Call.isSend, hp1, hp2, hp3, hu1, hu2, hu3]

/-- When `getSelectedFile` reports a failure, `handleSelection` makes no dispatch call:
`openTerminal` is not entered, and `noErr` is returned. -/
theorem handleSelection_of_failure (w : World) (context : AEDesc)
    (hfail : (getSelectedFile w w.indeterminateFSRef context).1 ≠ noErr) :
    handleSelection w context kTerminalHereMenuCommandId =
      (some noErr, (getSelectedFile w w.indeterminateFSRef context).2.2) ∧
    noDispatchCall (handleSelection w context kTerminalHereMenuCommandId).2 := by
  have hcalls := getSelectedFile_noDispatchCall w w.indeterminateFSRef context
  unfold handleSelection
  simp only [if_true, hfail, if_false]
  exact ⟨trivial, hcalls⟩

/-- The status of `handleSelection` is `noErr` whenever the run is defined; it is
undefined only for the command id 7001, a selection for which `getSelectedFile`
returns `noErr`, and a run of `openTerminal` that is undefined. -/
theorem handleSelection_status (w : World) (context : AEDesc) (commandId : Int) :
    (handleSelection w context commandId).1 = some noErr ∨
    ((handleSelection w context commandId).1 = none ∧
      commandId = kTerminalHereMenuCommandId ∧
      (getSelectedFile w w.indeterminateFSRef context).1 = noErr ∧
      (openTerminal w (getSelectedFile w w.indeterminateFSRef context).2.1).1 =
        Completion.undefined) := by
  unfold handleSelection
  dsimp only
  split
  · split
    · split
      · exact Or.inl rfl
      · rename_i hid hsel _ hund
        exact Or.inr ⟨rfl, hid, hsel, hund⟩
    · exact Or.inl rfl
  · exact Or.inl rfl

/-! ## Theorems -/

/-- C1 (as amended): for every selection context holding exactly one descriptor (a scalar
descriptor, or a list holding exactly one) that resolves to a directory, and every
initial command list `L`, when the Apple Event Manager answers `noErr` to the calls
that build and append the two entries, `examineContext` returns `noErr` and leaves the
command list equal to `L` followed by exactly two entries in this order: the separator
entry (`-`, 7000) and then the entry (`Open Terminal Here`, 7001). -/
theorem examineContext_directory (w : World) (context d : AEDesc) (L : AEDescList)
    (hsel : singleSelection w context d)
    (hres : (getFSRefFromAEDesc w w.indeterminateFSRef d).1 = true)
    (hdir : (isDirectory w (getFSRefFromAEDesc w w.indeterminateFSRef d).2.1).1 = true)
    (happend : appendCallsSucceed w L) :
    (examineContext w context L).1 = noErr ∧
    (examineContext w context L).2.1 = L ++ [separatorEntry, openTerminalHereEntry] := by
  obtain ⟨hstatus, hfile⟩ := getSelectedFile_resolved w w.indeterminateFSRef context d hsel hres
  obtain ⟨hlist, hn1, hi1, hp1, hn2, hi2, hp2⟩ := happend
  have hsep := (appendMenuItem_of_success w L "-" kSeparatorMenuCommandId hlist hn1 hi1
    hp1).2
  have hitem := (appendMenuItem_of_success w (L ++ [separatorEntry]) "Open Terminal Here"
    kTerminalHereMenuCommandId hlist hn2 hi2 hp2).2
  unfold examineContext
  simp only [hstatus, ne_eq, not_true_eq_false, if_false, hfile, hdir, if_true, true_and,
    appendMenuSeparator]
  rw [hsep]
  exact hitem.trans (by simp [separatorEntry, openTerminalHereEntry,
    kTerminalHereMenuCommandId])

/-- Witness of C1 (as amended): the one-folder list of the example desktop, with one
entry already in the command list. -/
theorem examineContext_directory_witness :
    (examineContext desktop oneFolderList [separatorEntry]).1 = noErr ∧
    (examineContext desktop oneFolderList [separatorEntry]).2.1 =
      [separatorEntry] ++ [separatorEntry, openTerminalHereEntry] :=
  examineContext_directory desktop oneFolderList projectsAlias [separatorEntry]
    (by decide) (by decide) (by decide) (by decide)

/-- Counterexample to C1 as stated: on the example desktop the scalar selection
`projectsAlias` resolves to a directory, yet when `AEPutDesc` answers `memFullErr`
`examineContext` returns `noErr` with the command list left as it was, not followed
by the two entries; the same happens when `AECreateList` or `AEPutKeyPtr` answers
`memFullErr`. -/
theorem examineContext_directory_counterexample :
    singleSelection desktopListFull projectsAlias projectsAlias ∧
    (getFSRefFromAEDesc desktopListFull desktopListFull.indeterminateFSRef
      projectsAlias).1 = true ∧
    (isDirectory desktopListFull (getFSRefFromAEDesc desktopListFull
      desktopListFull.indeterminateFSRef projectsAlias).2.1).1 = true ∧
    (examineContext desktopListFull projectsAlias [[]]).1 = noErr ∧
    (examineContext desktopListFull projectsAlias [[]]).2.1 = [[]] ∧
    (examineContext desktopListFull projectsAlias [[]]).2.1 ≠
      [[]] ++ [separatorEntry, openTerminalHereEntry] ∧
    (examineContext desktopNoRecord projectsAlias [[]]).1 = noErr ∧
    (examineContext desktopNoRecord projectsAlias [[]]).2.1 = [[]] ∧
    (examineContext desktopNoKey projectsAlias [[]]).1 = noErr ∧
    (examineContext desktopNoKey projectsAlias [[]]).2.1 = [[]] := by
  decide

/-- Counterexample to C2 as stated: for the two-item list of the example desktop,
`examineContext` appends nothing but returns `errAEWrongDataType`, not `noErr`. -/
theorem examineContext_unresolved_counterexample :
    holdsItems desktop twoItemList [projectsAlias, notesAlias] ∧
    (examineContext desktop twoItemList [[]]).2.1 = [[]] ∧
    (examineContext desktop twoItemList [[]]).1 = errAEWrongDataType ∧
    (examineContext desktop twoItemList [[]]).1 ≠ noErr :=
  ⟨⟨rfl, rfl, rfl⟩, rfl, rfl, by decide⟩

/-- C2 (as amended): for every selection context for which `getSelectedFile` reports a
failure, and in particular for every list context holding zero items or two or more
items and for every scalar descriptor that `getFSRefFromAEDesc` cannot resolve,
`examineContext` appends nothing to the command list and returns the status of
`getSelectedFile`, which is not `noErr`. -/
theorem examineContext_unresolved (w : World) (context : AEDesc) (L : AEDescList)
    (hfail : (getSelectedFile w w.indeterminateFSRef context).1 ≠ noErr ∨
      (∃ items, holdsItems w context items ∧ items.length ≠ 1) ∨
      (context.descriptorType ≠ typeAEList ∧
        (getFSRefFromAEDesc w w.indeterminateFSRef context).1 = false)) :
    (examineContext w context L).2.1 = L ∧
    (examineContext w context L).1 = (getSelectedFile w w.indeterminateFSRef context).1 ∧
    (examineContext w context L).1 ≠ noErr := by
  have hne : (getSelectedFile w w.indeterminateFSRef context).1 ≠ noErr := by
    rcases hfail with h | ⟨items, hlist, hlen⟩ | ⟨hscalar, hres⟩
    · exact h
    · cases items with
      | nil =>
        rw [getSelectedFile_no_item w _ context hlist]
        show errAEDescNotFound ≠ noErr
        decide
      | cons a rest =>
        cases rest with
        | nil => simp at hlen
        | cons b rest2 =>
          rw [getSelectedFile_many_items w _ context _ hlist (by simp)]
          show errAEWrongDataType ≠ noErr
          decide
    · rw [getSelectedFile_scalar w _ context hscalar, if_pos hres]
      show errAEWrongDataType ≠ noErr
      decide
  unfold examineContext
  dsimp only
  rw [if_pos hne]
  exact ⟨rfl, rfl, hne⟩

/-- Witness of C2 (as amended): the empty list of the example desktop. -/
theorem examineContext_unresolved_witness :
    (examineContext desktop emptyList [[]]).2.1 = [[]] ∧
    (examineContext desktop emptyList [[]]).1 =
      (getSelectedFile desktop desktop.indeterminateFSRef emptyList).1 ∧
    (examineContext desktop emptyList [[]]).1 ≠ noErr :=
  examineContext_unresolved desktop emptyList [[]]
    (Or.inr (Or.inl ⟨[], ⟨rfl, rfl, rfl⟩, by decide⟩))

/-- C3, the code at the failing input: on the example desktop the list `staleList`
holds the single descriptor `staleItem`, for which `getFSRefFromAEDesc` returns false
(the coercion to an alias fails); `getSelectedFile` returns `noErr` for the list and
leaves `*file` as it found it, while for the same descriptor passed as a scalar it
returns `errAEWrongDataType`. -/
theorem getSelectedFile_stale_list :
    holdsItems desktop staleList [staleItem] ∧
    (getFSRefFromAEDesc desktop desktop.indeterminateFSRef staleItem).1 = false ∧
    (getSelectedFile desktop desktop.indeterminateFSRef staleList).1 = noErr ∧
    (getSelectedFile desktop desktop.indeterminateFSRef staleList).2.1 =
      desktop.indeterminateFSRef ∧
    (getSelectedFile desktop desktop.indeterminateFSRef staleItem).1 =
      errAEWrongDataType :=
  ⟨⟨rfl, rfl, rfl⟩, rfl, rfl, rfl, rfl⟩

/-- C4, the code at the failing input: on the example desktop, for the list `staleList`
whose single descriptor cannot be resolved, `getSelectedFile` returns `noErr` and
`handleSelection` with command id 7001 calls `openTerminal` on the uninitialised
`FSRef`: the terminal application is looked up and launched. -/
theorem handleSelection_stale_list :
    holdsItems desktop staleList [staleItem] ∧
    (getFSRefFromAEDesc desktop desktop.indeterminateFSRef staleItem).1 = false ∧
    (handleSelection desktop staleList kTerminalHereMenuCommandId).2.countP
      Call.isLookup = 1 ∧
    (handleSelection desktop staleList kTerminalHereMenuCommandId).2.countP
      Call.isLaunch = 1 ∧
    (handleSelection desktop staleList kTerminalHereMenuCommandId).2 =
      [Call.AECountItems staleList, Call.AEGetNthDesc staleList 1 typeWildCard,
        Call.AECoerceDesc staleItem typeAlias,
        Call.LSFindApplicationForInfo kLSUnknownCreator "com.apple.Terminal"
          "Terminal.app",
        Call.LSOpenFromRefSpec ⟨⟨7⟩, 0, kLSLaunchDefaults⟩,
        Call.AECreateDesc typeApplicationBundleID "com.apple.Terminal",
        Call.AECreateAppleEvent kAECoreSuite kAEDoScript cdEventDesc kAutoGenerateReturnID
          kAnyTransactionID,
        Call.CFURLCreateFromFSRef ⟨999⟩] := by
  decide

/-- C7: for every selection context holding exactly one descriptor (a scalar descriptor,
or a list holding exactly one) that resolves to a file system entry for which
`isDirectory` returns false, `examineContext` appends nothing to the command list and
returns `noErr`. -/
theorem examineContext_not_directory (w : World) (context d : AEDesc) (L : AEDescList)
    (hsel : singleSelection w context d)
    (hres : (getFSRefFromAEDesc w w.indeterminateFSRef d).1 = true)
    (hdir : (isDirectory w (getFSRefFromAEDesc w w.indeterminateFSRef d).2.1).1 = false) :
    (examineContext w context L).2.1 = L ∧ (examineContext w context L).1 = noErr := by
  obtain ⟨hstatus, hfile⟩ := getSelectedFile_resolved w w.indeterminateFSRef context d hsel hres
  unfold examineContext
  simp only [hstatus, ne_eq, not_true_eq_false, if_false, hfile, hdir, Bool.false_eq_true,
    and_self]

/-- Witness of C7: the file `notes.txt` of the example desktop, selected as a scalar. -/
theorem examineContext_not_directory_witness :
    (examineContext desktop notesAlias [[]]).2.1 = [[]] ∧
      (examineContext desktop notesAlias [[]]).1 = noErr :=
  examineContext_not_directory desktop notesAlias notesAlias [[]]
    (Or.inl ⟨by decide, rfl⟩) rfl rfl

/-- C8, the code at the failing input: when `openTerminal` is handed an `FSRef` for
which `CFURLCreateFromFSRef` returns `NULL`, `handleSelection` with command id 7001
does not reach `return noErr` by defined behaviour.  On the example desktop this
happens for the list `staleList` (the uninitialised `FSRef`), and on the desktop
where no URL can be made it happens for the resolved folder of `oneFolderList`. -/
theorem handleSelection_unassigned_path :
    (getSelectedFile desktop desktop.indeterminateFSRef staleList).1 = noErr ∧
    (createFileNameFromFSRef desktop
      (getSelectedFile desktop desktop.indeterminateFSRef staleList).2.1).1 = none ∧
    (handleSelection desktop staleList kTerminalHereMenuCommandId).1 = none ∧
    singleSelection desktopNoURL oneFolderList projectsAlias ∧
    (getFSRefFromAEDesc desktopNoURL desktopNoURL.indeterminateFSRef projectsAlias).1 =
      true ∧
    (createFileNameFromFSRef desktopNoURL
      (getSelectedFile desktopNoURL desktopNoURL.indeterminateFSRef oneFolderList).2.1).1 =
      none ∧
    (handleSelection desktopNoURL oneFolderList kTerminalHereMenuCommandId).1 = none := by
  decide

/-- C9: for every command id different from `kTerminalHereMenuCommandId` (7001), the
separator id 7000 included, and every selection context, `handleSelection` makes no
system call at all (it resolves nothing, looks up and launches nothing, sends
nothing) and returns `noErr`. -/
theorem handleSelection_other_command (w : World) (context : AEDesc) (commandId : Int)
    (hother : commandId ≠ kTerminalHereMenuCommandId) :
    handleSelection w context commandId = (some noErr, []) := by
  unfold handleSelection
  rw [if_neg hother]

/-- Witness of C9: the separator id on the one-folder list of the example desktop. -/
theorem handleSelection_other_command_witness :
    handleSelection desktop oneFolderList kSeparatorMenuCommandId = (some noErr, []) :=
  handleSelection_other_command desktop oneFolderList kSeparatorMenuCommandId (by decide)

/-- C10: `isDirectory` returns false whenever the node-flags query fails, and when the
query succeeds it returns true exactly when bit 4, the bit of
`kFSNodeIsDirectoryMask`, is set in the returned 16-bit node flags. -/
theorem isDirectory_iff_directory_bit (w : World) (ref : FSRef) :
    ((w.FSGetCatalogInfo ref kFSCatInfoNodeFlags).1 ≠ noErr →
      (isDirectory w ref).1 = false) ∧
    ((w.FSGetCatalogInfo ref kFSCatInfoNodeFlags).1 = noErr →
      ((isDirectory w ref).1 = true ↔
        Nat.testBit ((w.FSGetCatalogInfo ref kFSCatInfoNodeFlags).2 % 2 ^ 16) 4 = true)) := by
  unfold isDirectory
  dsimp only
  constructor
  · intro h
    rw [if_pos h]
  · intro h
    rw [if_neg (not_not.mpr h)]
    simp only [decide_eq_true_eq]
    exact and_directoryMask _

/-- Witness of C10: on the example desktop the query fails for the entry 999, and
succeeds for the folder 1 with the directory bit set. -/
theorem isDirectory_iff_directory_bit_witness :
    (isDirectory desktop ⟨999⟩).1 = false ∧
    ((isDirectory desktop ⟨1⟩).1 = true ↔
      Nat.testBit ((desktop.FSGetCatalogInfo ⟨1⟩ kFSCatInfoNodeFlags).2 % 2 ^ 16) 4 = true) :=
  ⟨(isDirectory_iff_directory_bit desktop ⟨999⟩).1 (by decide),
    (isDirectory_iff_directory_bit desktop ⟨1⟩).2 rfl⟩

/-- C5: for every selection context holding exactly one descriptor that resolves to an
entry with POSIX path string `p` (any string), when every system call of the dispatch
succeeds, `handleSelection` with command id 7001 returns `noErr` after exactly one
launch-or-activate call and exactly one send, and the only parameter of the event sent
is the UTF-8 text `cd "` followed by `p` followed by `"`, with `p` unchanged. -/
theorem handleSelection_dispatches_once (w : World) (context d : AEDesc) (p : String)
    (hsel : singleSelection w context d)
    (hres : (getFSRefFromAEDesc w w.indeterminateFSRef d).1 = true)
    (hok : dispatchCallsSucceed w (getFSRefFromAEDesc w w.indeterminateFSRef d).2.1 p) :
    (handleSelection w context kTerminalHereMenuCommandId).1 = some noErr ∧
    (handleSelection w context kTerminalHereMenuCommandId).2.countP Call.isLaunch = 1 ∧
    (handleSelection w context kTerminalHereMenuCommandId).2.countP Call.isSend = 1 ∧
    sentEvents (handleSelection w context kTerminalHereMenuCommandId).2 =
      [⟨kAECoreSuite, kAEDoScript,
        ⟨typeApplicationBundleID, AEDataStorage.chars "com.apple.Terminal"⟩,
        kAutoGenerateReturnID, kAnyTransactionID,
        [(kAECommandClass, ⟨typeUTF8Text, AEDataStorage.chars ("cd \"" ++ p ++ "\"")⟩)]⟩] := by
  obtain ⟨hstatus, hfile⟩ := getSelectedFile_resolved w w.indeterminateFSRef context d hsel hres
  obtain ⟨hdone, hlaunch, hsend, hevents⟩ := openTerminal_of_success w _ p hok
  obtain ⟨_, hl0, hs0, he0⟩ := noDispatchCall_counts _
    (getSelectedFile_noDispatchCall w w.indeterminateFSRef context)
  have hcmd : commandStr p = "cd \"" ++ p ++ "\"" := by
    unfold commandStr
    rw [String.empty_append]
  rw [hcmd] at hevents
  unfold handleSelection
  simp only [if_true, hstatus, hfile, hdone, List.countP_append, hl0, hs0, hlaunch, hsend,
    zero_add, true_and]
  simp only [sentEvents, List.filterMap_append] at he0 hevents ⊢
  rw [he0, hevents]
  rfl

/-- Witness of C5: on the example desktop, the one-folder list yields the text
`cd "/Users/alice/Projects"`. -/
theorem handleSelection_dispatches_once_witness :
    (handleSelection desktop oneFolderList kTerminalHereMenuCommandId).1 = some noErr ∧
    (handleSelection desktop oneFolderList kTerminalHereMenuCommandId).2.countP
      Call.isLaunch = 1 ∧
    (handleSelection desktop oneFolderList kTerminalHereMenuCommandId).2.countP
      Call.isSend = 1 ∧
    sentEvents (handleSelection desktop oneFolderList kTerminalHereMenuCommandId).2 =
      [⟨kAECoreSuite, kAEDoScript,
        ⟨typeApplicationBundleID, AEDataStorage.chars "com.apple.Terminal"⟩,
        kAutoGenerateReturnID, kAnyTransactionID,
        [(kAECommandClass,
          ⟨typeUTF8Text, AEDataStorage.chars "cd \"/Users/alice/Projects\""⟩)]⟩] :=
  handleSelection_dispatches_once desktop oneFolderList projectsAlias
    "/Users/alice/Projects" (by decide) (by decide) (by decide)

/-- A path holding a double quote goes into the command text as it is: on the example
desktop the folder `/Users/alice/My"Folder` yields the text
`cd "/Users/alice/My"Folder"`. -/
theorem handleSelection_quoted_path :
    sentEvents (handleSelection desktop quotedAlias kTerminalHereMenuCommandId).2 =
      [⟨kAECoreSuite, kAEDoScript,
        ⟨typeApplicationBundleID, AEDataStorage.chars "com.apple.Terminal"⟩,
        kAutoGenerateReturnID, kAnyTransactionID,
        [(kAECommandClass,
          ⟨typeUTF8Text, AEDataStorage.chars "cd \"/Users/alice/My\"Folder\""⟩)]⟩] := by
  decide

/-- C6, the code at the failing input: when `CFURLCreateFromFSRef` returns `NULL` the
path query fails, yet `openTerminal` does not abort: after the lookup, the launch and
the creation of the address descriptor and of the event it goes on to append the
unassigned pointer to the command string, and the run is undefined.  On the example
desktop this happens for the uninitialised `FSRef` 999, and on the desktop where no
URL can be made it happens for the folder 1. -/
theorem openTerminal_unassigned_path :
    (createFileNameFromFSRef desktop ⟨999⟩).1 = none ∧
    openTerminal desktop ⟨999⟩ =
      (Completion.undefined,
        [Call.LSFindApplicationForInfo kLSUnknownCreator "com.apple.Terminal"
          "Terminal.app",
        Call.LSOpenFromRefSpec ⟨⟨7⟩, 0, kLSLaunchDefaults⟩,
        Call.AECreateDesc typeApplicationBundleID "com.apple.Terminal",
        Call.AECreateAppleEvent kAECoreSuite kAEDoScript cdEventDesc kAutoGenerateReturnID
          kAnyTransactionID,
        Call.CFURLCreateFromFSRef ⟨999⟩]) ∧
    (createFileNameFromFSRef desktopNoURL ⟨1⟩).1 = none ∧
    (openTerminal desktopNoURL ⟨1⟩).1 = Completion.undefined := by
  decide

end TerminalHere
